import Mathlib

/-!
# MenuSystem: session requests of `AMenuSystemCharacter`

A shallow embedding of `Source/MenuSystem/MenuSystemCharacter.cpp`:
the constructor, `CreateGameSession`, `JoinGameSession`,
`OnCreateSessionComplete` and `OnFindSessionComplete`, run against an
explicit state that holds the character's members, the engine objects the
code touches (`GEngine`, the local player's net id when there is one, what
the engine's constructors of session settings and of a search context yield,
the heap of shared search objects) and the session service behind `OnlineSessionInterface`.

Every call the character makes on the session interface is appended to
`World.calls`; every handler entry is appended to `World.invocations`;
every `AddOnScreenDebugMessage` call is appended to `World.screen`.
-/

namespace MenuSystem

/-! ## Engine value types -/

abbrev FName := String
abbrev FString := String
abbrev FUniqueNetId := String

/-- Modelled from the spec: the well-known session name; `NAME_GameSession`
is an engine constant that the repository only uses. -/
def NAME_GameSession : FName := "GameSession"

/-- Modelled from the spec: the key of the presence query filter;
`SEARCH_PRESENCE` is an engine constant that the repository only uses. -/
def SEARCH_PRESENCE : FName := "PRESENCESEARCH"

/-- The colours the character passes to `AddOnScreenDebugMessage`. -/
inductive FColor
  | Blue
  | Red
  | Cyan
  deriving DecidableEq, Repr

/-- One call `GEngine->AddOnScreenDebugMessage(Key, TimeToDisplay, Color, Message)`.
`TimeToDisplay` is the literal `15.f` of the source, kept as the number of seconds. -/
structure FDebugMessage where
  Key : Int
  TimeToDisplay : Nat
  DisplayColor : FColor
  DebugMessage : FString
  deriving DecidableEq, Repr

/-- The fields of `FOnlineSessionSettings` that `CreateGameSession` writes. -/
structure FOnlineSessionSettings where
  NumPublicConnections : Int
  bShouldAdvertise : Bool
  bAllowJoinInProgress : Bool
  bIsLANMatch : Bool
  bUsesPresence : Bool
  bAllowJoinViaPresence : Bool
  bUseLobbiesIfAvailable : Bool
  deriving DecidableEq, Repr

/-- The comparison operators of `EOnlineComparisonOp`. -/
inductive EOnlineComparisonOp
  | Equals
  | NotEquals
  | GreaterThan
  | GreaterThanEquals
  | LessThan
  | LessThanEquals
  | Near
  | In
  | NotIn
  deriving DecidableEq, Repr

/-- One entry of `FOnlineSessionSearch::QuerySettings`: key, boolean value, operator. -/
structure FOnlineSessionSearchParam where
  Key : FName
  Data : Bool
  ComparisonOp : EOnlineComparisonOp
  deriving DecidableEq, Repr

/-- The part of `FOnlineSession` that `OnFindSessionComplete` reads: the owner's
display name and the text of the session id. -/
structure FOnlineSession where
  OwningUserName : FString
  SessionIdStr : FString
  deriving DecidableEq, Repr

structure FOnlineSessionSearchResult where
  Session : FOnlineSession
  deriving DecidableEq, Repr

/-- Embeds `Result.GetSessionIdStr()`. -/
def FOnlineSessionSearchResult.GetSessionIdStr (r : FOnlineSessionSearchResult) : FString :=
  r.Session.SessionIdStr

/-- The search context `FOnlineSessionSearch`. -/
structure FOnlineSessionSearch where
  SearchResults : List FOnlineSessionSearchResult
  QuerySettings : List FOnlineSessionSearchParam
  MaxSearchResults : Int
  bIsLanQuery : Bool
  deriving DecidableEq, Repr

/-- Modelled from the spec: `QuerySettings.Set(Key, Value, Op)` of the engine:
the entry of that key is overwritten when there is one and added otherwise. -/
def QuerySettings_Set (qs : List FOnlineSessionSearchParam) (Key : FName) (Value : Bool)
    (Op : EOnlineComparisonOp) : List FOnlineSessionSearchParam :=
  if qs.any (fun e => e.Key == Key) then
    qs.map (fun e => if e.Key == Key then ⟨Key, Value, Op⟩ else e)
  else
    qs ++ [⟨Key, Value, Op⟩]

/-! ## Delegates -/

/-- Embeds `FOnCreateSessionCompleteDelegate`: the only value the character builds is the one
bound by `CreateUObject(this, &AMenuSystemCharacter::OnCreateSessionComplete)`. -/
inductive FOnCreateSessionCompleteDelegate
  | OnCreateSessionComplete
  deriving DecidableEq, Repr

/-- Embeds `FOnFindSessionsCompleteDelegate`: the only value the character builds is the one
bound by `CreateUObject(this, &AMenuSystemCharacter::OnFindSessionComplete)`. -/
inductive FOnFindSessionsCompleteDelegate
  | OnFindSessionComplete
  deriving DecidableEq, Repr

/-! ## Recorded calls -/

/-- A call made on `OnlineSessionInterface`. A search context is passed by shared
reference, recorded as its address in `World.searchObjects`. -/
inductive SessionCall
  | GetNamedSession (SessionName : FName)
  | DestroySession (SessionName : FName)
  | AddOnCreateSessionCompleteDelegate_Handle (Delegate : FOnCreateSessionCompleteDelegate)
  | CreateSession (HostingPlayerId : FUniqueNetId) (SessionName : FName)
      (NewSessionSettings : FOnlineSessionSettings)
  | AddOnFindSessionsCompleteDelegate_Handle (Delegate : FOnFindSessionsCompleteDelegate)
  | FindSessions (SearchingPlayerId : FUniqueNetId) (SearchSettings : Nat)
  deriving DecidableEq, Repr

/-- An entry into one of the two completion handlers of the character. -/
inductive Invocation
  | OnCreateSessionComplete (SessionName : FName) (bWasSuccessful : Bool)
  | OnFindSessionComplete (bWasSuccessful : Bool)
  deriving DecidableEq, Repr

/-! ## State -/

/-- The character, the engine objects it touches and the session service. -/
structure World where
  /-- Embeds `OnlineSessionInterface.IsValid()`. -/
  OnlineSessionInterface : Bool
  /-- Embeds `TSharedPtr<FOnlineSessionSearch> SessionSearch`: null, or an address in
  `searchObjects`. -/
  SessionSearch : Option Nat
  /-- Whether the global `GEngine` is non-null. -/
  GEngine : Bool
  /-- The messages passed to `GEngine->AddOnScreenDebugMessage`, oldest first. -/
  screen : List FDebugMessage
  /-- Embeds `GetWorld()->GetFirstLocalPlayerFromController()->GetPreferredUniqueNetId()`:
  the net id of the first local player, or `none` when the world, the local player or its
  net id is null. The source dereferences them without a test. -/
  LocalPlayerNetId : Option FUniqueNetId
  /-- What `new FOnlineSessionSettings()` constructs. The constructor is the engine's and is
  not part of the repository, so the settings it yields are left open. -/
  NewSessionSettings : FOnlineSessionSettings
  /-- What `new FOnlineSessionSearch()` constructs. The constructor is the engine's and is
  not part of the repository, so the context it yields is left open. -/
  NewSessionSearch : FOnlineSessionSearch
  /-- The search contexts made by `MakeShareable(new FOnlineSessionSearch())`, by address. -/
  searchObjects : List FOnlineSessionSearch
  /-- Service: the named sessions it holds. -/
  sessions : List FName
  /-- Service: the delegates registered for create completions, in registration order. -/
  OnCreateSessionCompleteDelegates : List FOnCreateSessionCompleteDelegate
  /-- Service: the delegates registered for find completions, in registration order. -/
  OnFindSessionsCompleteDelegates : List FOnFindSessionsCompleteDelegate
  /-- Service: the create requests not yet completed, oldest first. -/
  pendingCreate : List FName
  /-- Service: the find requests not yet completed (address of their search context). -/
  pendingFind : List Nat
  /-- History: every call made on the session interface, oldest first. -/
  calls : List SessionCall
  /-- History: the sessions the service held at each `CreateSession` call. -/
  sessionsAtCreate : List (List FName)
  /-- History: every entry into a completion handler, oldest first. -/
  invocations : List Invocation
  deriving DecidableEq, Repr

/-- Embeds `GEngine->AddOnScreenDebugMessage(Key, TimeToDisplay, Color, Message)`. -/
def AddOnScreenDebugMessage (w : World) (Key : Int) (TimeToDisplay : Nat) (Color : FColor)
    (Message : FString) : World :=
  { w with screen := w.screen ++ [⟨Key, TimeToDisplay, Color, Message⟩] }

/-- Writes through a shared pointer: the object at address `p` becomes `f` of itself. -/
def updateAt {α : Type} : List α → Nat → (α → α) → List α
  | [], _, _ => []
  | a :: as, 0, f => f a :: as
  | a :: as, p + 1, f => a :: updateAt as p f

/-! ## The session service

Modelled from the spec: the service is the engine's online subsystem, outside the
repository. It keeps the named sessions as a duplicate-free list, removes a name on
`DestroySession`, adds it when a `CreateSession` request completes successfully, keeps every
registered delegate and, when a request completes, notifies each registered delegate once. -/

/-- Modelled from the spec: `GetNamedSession(SessionName)`; the result is whether a session
of that name exists (a non-null pointer). -/
def IOnlineSession.GetNamedSession (w : World) (SessionName : FName) : World × Bool :=
  ({ w with calls := w.calls ++ [.GetNamedSession SessionName] },
    decide (SessionName ∈ w.sessions))

/-- Modelled from the spec: `DestroySession(SessionName)` removes the name. -/
def IOnlineSession.DestroySession (w : World) (SessionName : FName) : World :=
  { w with
    calls := w.calls ++ [.DestroySession SessionName]
    sessions := w.sessions.erase SessionName }

/-- Modelled from the spec: `AddOnCreateSessionCompleteDelegate_Handle(Delegate)` adds one
more entry to the service's list of create-completion delegates. -/
def IOnlineSession.AddOnCreateSessionCompleteDelegate_Handle (w : World)
    (Delegate : FOnCreateSessionCompleteDelegate) : World :=
  { w with
    calls := w.calls ++ [.AddOnCreateSessionCompleteDelegate_Handle Delegate]
    OnCreateSessionCompleteDelegates := w.OnCreateSessionCompleteDelegates ++ [Delegate] }

/-- Modelled from the spec: `CreateSession(HostingPlayerId, SessionName, Settings)` queues
an asynchronous create request; the history keeps the sessions held at that moment. -/
def IOnlineSession.CreateSession (w : World) (HostingPlayerId : FUniqueNetId)
    (SessionName : FName) (NewSessionSettings : FOnlineSessionSettings) : World :=
  { w with
    calls := w.calls ++ [.CreateSession HostingPlayerId SessionName NewSessionSettings]
    sessionsAtCreate := w.sessionsAtCreate ++ [w.sessions]
    pendingCreate := w.pendingCreate ++ [SessionName] }

/-- Modelled from the spec: `AddOnFindSessionsCompleteDelegate_Handle(Delegate)` adds one
more entry to the service's list of find-completion delegates. -/
def IOnlineSession.AddOnFindSessionsCompleteDelegate_Handle (w : World)
    (Delegate : FOnFindSessionsCompleteDelegate) : World :=
  { w with
    calls := w.calls ++ [.AddOnFindSessionsCompleteDelegate_Handle Delegate]
    OnFindSessionsCompleteDelegates := w.OnFindSessionsCompleteDelegates ++ [Delegate] }

/-- Modelled from the spec: `FindSessions(SearchingPlayerId, SearchSettings)` queues an
asynchronous search that will fill the search context at address `SearchSettings`. -/
def IOnlineSession.FindSessions (w : World) (SearchingPlayerId : FUniqueNetId)
    (SearchSettings : Nat) : World :=
  { w with
    calls := w.calls ++ [.FindSessions SearchingPlayerId SearchSettings]
    pendingFind := w.pendingFind ++ [SearchSettings] }

/-! ## The character -/

/-- The part of `IOnlineSubsystem` the constructor reads. -/
structure IOnlineSubsystem where
  SubsystemName : FName
  /-- Whether `GetSessionInterface()` returns a valid pointer. -/
  SessionInterface : Bool
  deriving DecidableEq, Repr

/-- The member `CreateSessionCompleteDelegate`, bound in the constructor's initialiser list. -/
def CreateSessionCompleteDelegate : FOnCreateSessionCompleteDelegate :=
  .OnCreateSessionComplete

/-- The member `FindSessionsCompleteDelegate`, bound in the constructor's initialiser list. -/
def FindSessionsCompleteDelegate : FOnFindSessionsCompleteDelegate :=
  .OnFindSessionComplete

/-- Embeds `AMenuSystemCharacter::AMenuSystemCharacter()`, session part: `IOnlineSubsystem::Get()`
is `OnlineSubsystem`; the engine supplies `GEngine`, the local player's net id (if any) and
what newly constructed settings and search contexts look like; the service starts with the
sessions `sessions`, no delegate of this character and no request. -/
def AMenuSystemCharacter (OnlineSubsystem : Option IOnlineSubsystem) (GEngine : Bool)
    (LocalPlayerNetId : Option FUniqueNetId) (NewSessionSettings : FOnlineSessionSettings)
    (NewSessionSearch : FOnlineSessionSearch) (sessions : List FName) : World :=
  let w : World :=
    { OnlineSessionInterface := false
      SessionSearch := none
      GEngine := GEngine
      screen := []
      LocalPlayerNetId := LocalPlayerNetId
      NewSessionSettings := NewSessionSettings
      NewSessionSearch := NewSessionSearch
      searchObjects := []
      sessions := sessions
      OnCreateSessionCompleteDelegates := []
      OnFindSessionsCompleteDelegates := []
      pendingCreate := []
      pendingFind := []
      calls := []
      sessionsAtCreate := []
      invocations := [] }
  match OnlineSubsystem with
  | none => w
  | some sub =>
    let w := { w with OnlineSessionInterface := sub.SessionInterface }
    if w.GEngine then
      AddOnScreenDebugMessage w (-1) 15 FColor.Blue ("Found subsystem " ++ sub.SubsystemName)
    else w

/-- How a call of `CreateGameSession` or `JoinGameSession` ends: it returns, or the process
stops where the source dereferences the local player (or its net id) and that is null. Both
carry the state reached. -/
inductive Outcome
  | returned (w : World)
  | nullLocalPlayer (w : World)
  deriving DecidableEq, Repr

/-- The state in which a call ended. -/
def Outcome.state : Outcome → World
  | .returned w => w
  | .nullLocalPlayer w => w

/-- Whether a call returned to its caller. -/
def Outcome.isReturned : Outcome → Bool
  | .returned _ => true
  | .nullLocalPlayer _ => false

/-- Embeds `AMenuSystemCharacter::CreateGameSession()`. -/
def CreateGameSession (w : World) : Outcome :=
  if !w.OnlineSessionInterface then .returned w
  else
    let (w, ExistingSession) := IOnlineSession.GetNamedSession w NAME_GameSession
    let w := if ExistingSession then IOnlineSession.DestroySession w NAME_GameSession else w
    let w :=
      IOnlineSession.AddOnCreateSessionCompleteDelegate_Handle w CreateSessionCompleteDelegate
    let SessionSettings := w.NewSessionSettings
    let SessionSettings := { SessionSettings with bIsLANMatch := false }
    let SessionSettings := { SessionSettings with NumPublicConnections := 4 }
    let SessionSettings := { SessionSettings with bAllowJoinInProgress := true }
    let SessionSettings := { SessionSettings with bAllowJoinViaPresence := true }
    let SessionSettings := { SessionSettings with bShouldAdvertise := true }
    let SessionSettings := { SessionSettings with bUsesPresence := true }
    let SessionSettings := { SessionSettings with bUseLobbiesIfAvailable := true }
    match w.LocalPlayerNetId with
    | none => .nullLocalPlayer w
    | some NetId =>
      .returned (IOnlineSession.CreateSession w NetId NAME_GameSession SessionSettings)

/-- Allocation `MakeShareable(new FOnlineSessionSearch())`: a new search context at an
address not in use; returns the state and that address. -/
def MakeShareable_FOnlineSessionSearch (w : World) : World × Nat :=
  ({ w with searchObjects := w.searchObjects ++ [w.NewSessionSearch] },
    w.searchObjects.length)

/-- A write `Ptr->field = value` through the pointer `Ptr` to a search context. -/
def FOnlineSessionSearch_write (w : World) (Ptr : Nat)
    (f : FOnlineSessionSearch → FOnlineSessionSearch) : World :=
  { w with searchObjects := updateAt w.searchObjects Ptr f }

/-- Embeds `AMenuSystemCharacter::JoinGameSession()`. In the body `Ptr` is the value the
member `SessionSearch` has from its assignment on. -/
def JoinGameSession (w : World) : Outcome :=
  if !w.OnlineSessionInterface then .returned w
  else
    let w := IOnlineSession.AddOnFindSessionsCompleteDelegate_Handle w FindSessionsCompleteDelegate
    let (w, Ptr) := MakeShareable_FOnlineSessionSearch w
    let w := { w with SessionSearch := some Ptr }
    let w := FOnlineSessionSearch_write w Ptr (fun s => { s with MaxSearchResults := 10000 })
    let w := FOnlineSessionSearch_write w Ptr (fun s => { s with bIsLanQuery := false })
    let w := FOnlineSessionSearch_write w Ptr (fun s =>
      { s with
        QuerySettings :=
          QuerySettings_Set s.QuerySettings SEARCH_PRESENCE true EOnlineComparisonOp.Equals })
    match w.LocalPlayerNetId with
    | none => .nullLocalPlayer w
    | some NetId => .returned (IOnlineSession.FindSessions w NetId Ptr)

/-- Embeds `AMenuSystemCharacter::OnCreateSessionComplete(SessionName, bWasSuccessful)`; the
first line records the entry into the handler in the history. -/
def OnCreateSessionComplete (w : World) (SessionName : FName) (bWasSuccessful : Bool) : World :=
  let w := { w with
    invocations :=
      w.invocations ++ [Invocation.OnCreateSessionComplete SessionName bWasSuccessful] }
  if bWasSuccessful then
    if w.GEngine then
      AddOnScreenDebugMessage w (-1) 15 FColor.Blue ("Create session: " ++ SessionName)
    else w
  else
    if w.GEngine then
      AddOnScreenDebugMessage w (-1) 15 FColor.Red "Failed to create session!"
    else w

/-- The body of the loop of `OnFindSessionComplete` for one `Result`. -/
def OnFindSessionComplete_body (w : World) (Result : FOnlineSessionSearchResult) : World :=
  let Id := Result.GetSessionIdStr
  let User := Result.Session.OwningUserName
  if w.GEngine then
    AddOnScreenDebugMessage w (-1) 15 FColor.Cyan ("Id: " ++ Id ++ ", User: " ++ User)
  else w

/-- Embeds `AMenuSystemCharacter::OnFindSessionComplete(bWasSuccessful)`; `none` is the
dereference of a null (or dangling) `SessionSearch`; the first line records the entry into
the handler in the history. -/
def OnFindSessionComplete (w : World) (bWasSuccessful : Bool) : Option World :=
  let w := { w with
    invocations := w.invocations ++ [Invocation.OnFindSessionComplete bWasSuccessful] }
  match w.SessionSearch with
  | none => none
  | some p =>
    match w.searchObjects[p]? with
    | none => none
    | some s => some (s.SearchResults.foldl OnFindSessionComplete_body w)

/-! ## Completions delivered by the service -/

/-- Runs the handler a create-completion delegate is bound to. -/
def FOnCreateSessionCompleteDelegate.Execute (d : FOnCreateSessionCompleteDelegate) (w : World)
    (SessionName : FName) (bWasSuccessful : Bool) : World :=
  match d with
  | .OnCreateSessionComplete => MenuSystem.OnCreateSessionComplete w SessionName bWasSuccessful

/-- Runs the handler a find-completion delegate is bound to. -/
def FOnFindSessionsCompleteDelegate.Execute (d : FOnFindSessionsCompleteDelegate) (w : World)
    (bWasSuccessful : Bool) : Option World :=
  match d with
  | .OnFindSessionComplete => MenuSystem.OnFindSessionComplete w bWasSuccessful

/-- Modelled from the spec: the service notifies every delegate registered for create
completions, once each, in registration order. -/
def TriggerOnCreateSessionCompleteDelegates (w : World) (SessionName : FName)
    (bWasSuccessful : Bool) : World :=
  w.OnCreateSessionCompleteDelegates.foldl (fun w d => d.Execute w SessionName bWasSuccessful) w

/-- Modelled from the spec: the service notifies every delegate registered for find
completions, once each, in registration order. -/
def TriggerOnFindSessionsCompleteDelegates (w : World) (bWasSuccessful : Bool) : Option World :=
  w.OnFindSessionsCompleteDelegates.foldlM (fun w d => d.Execute w bWasSuccessful) w

/-- Modelled from the spec: the oldest pending create request completes; on success the
service holds the session name from then on; the registered delegates are notified. With no
pending request nothing happens. -/
def completeCreateSession (w : World) (bWasSuccessful : Bool) : World :=
  match w.pendingCreate with
  | [] => w
  | SessionName :: rest =>
    let w := { w with
      pendingCreate := rest
      sessions := if bWasSuccessful then w.sessions.insert SessionName else w.sessions }
    TriggerOnCreateSessionCompleteDelegates w SessionName bWasSuccessful

/-- Modelled from the spec: the `k`-th pending find request completes; the service writes
`results` into the search context it was given, then notifies the registered delegates. With
no such request nothing happens. -/
def completeFindSessions (w : World) (k : Nat) (bWasSuccessful : Bool)
    (results : List FOnlineSessionSearchResult) : Option World :=
  match w.pendingFind[k]? with
  | none => some w
  | some p =>
    let w := { w with
      pendingFind := w.pendingFind.eraseIdx k
      searchObjects := updateAt w.searchObjects p (fun s => { s with SearchResults := results }) }
    TriggerOnFindSessionsCompleteDelegates w bWasSuccessful

/-- What can happen to the character: one of its two operations is called, or the service
completes a request. -/
inductive Event
  | CreateGameSession
  | JoinGameSession
  | CreateSessionComplete (bWasSuccessful : Bool)
  | FindSessionsComplete (k : Nat) (bWasSuccessful : Bool)
      (results : List FOnlineSessionSearchResult)
  deriving DecidableEq, Repr

/-- The two null dereferences that can stop the process. -/
inductive Crash
  | LocalPlayer
  | SessionSearch
  deriving DecidableEq, Repr

/-- A call as a step of a run: a call that does not return stops the run. -/
def Outcome.toExcept : Outcome → Except Crash World
  | .returned w => .ok w
  | .nullLocalPlayer _ => .error Crash.LocalPlayer

/-- One event; an error when the source dereferences a null local player in an operation or
a null `SessionSearch` in a handler. -/
def step (w : World) : Event → Except Crash World
  | .CreateGameSession => (CreateGameSession w).toExcept
  | .JoinGameSession => (JoinGameSession w).toExcept
  | .CreateSessionComplete b => .ok (completeCreateSession w b)
  | .FindSessionsComplete k b results =>
    match completeFindSessions w k b results with
    | some w2 => .ok w2
    | none => .error Crash.SessionSearch

/-- A sequence of events, oldest first; it stops at the first error. -/
def run (w : World) (evs : List Event) : Except Crash World :=
  evs.foldlM step w

/-! ## Vocabulary of the statements -/

/-- The calls made on the session interface between state `w` and the later state `w2`. -/
def callsSince (w w2 : World) : List SessionCall :=
  w2.calls.drop w.calls.length

def SessionCall.isCreateSession : SessionCall → Bool
  | .CreateSession _ _ _ => true
  | _ => false

def SessionCall.isFindSessions : SessionCall → Bool
  | .FindSessions _ _ => true
  | _ => false

/-- The settings `CreateGameSession` sends. -/
def sentSettings : FOnlineSessionSettings :=
  { NumPublicConnections := 4
    bShouldAdvertise := true
    bAllowJoinInProgress := true
    bIsLANMatch := false
    bUsesPresence := true
    bAllowJoinViaPresence := true
    bUseLobbiesIfAvailable := true }

/-- The search context `JoinGameSession` sends when a new context is `fresh`. -/
def sentSearch (fresh : FOnlineSessionSearch) : FOnlineSessionSearch :=
  { SearchResults := fresh.SearchResults
    QuerySettings :=
      QuerySettings_Set fresh.QuerySettings SEARCH_PRESENCE true EOnlineComparisonOp.Equals
    MaxSearchResults := 10000
    bIsLanQuery := false }

/-- The calls `CreateGameSession` makes, with a valid session interface, before it reads the
local player. -/
def createCallsBefore (w : World) : List SessionCall :=
  if NAME_GameSession ∈ w.sessions then
    [.GetNamedSession NAME_GameSession, .DestroySession NAME_GameSession,
     .AddOnCreateSessionCompleteDelegate_Handle CreateSessionCompleteDelegate]
  else
    [.GetNamedSession NAME_GameSession,
     .AddOnCreateSessionCompleteDelegate_Handle CreateSessionCompleteDelegate]

/-- The calls `CreateGameSession` makes with a valid session interface. -/
def createCalls (w : World) : List SessionCall :=
  createCallsBefore w ++
    (match w.LocalPlayerNetId with
     | none => []
     | some NetId => [.CreateSession NetId NAME_GameSession sentSettings])

/-- The state in which `CreateGameSession` returns, with a valid session interface and a
local player. -/
def afterCreateGameSession (w : World) : World :=
  { w with
    calls := w.calls ++ createCalls w
    sessions := w.sessions.erase NAME_GameSession
    OnCreateSessionCompleteDelegates :=
      w.OnCreateSessionCompleteDelegates ++ [CreateSessionCompleteDelegate]
    sessionsAtCreate := w.sessionsAtCreate ++ [w.sessions.erase NAME_GameSession]
    pendingCreate := w.pendingCreate ++ [NAME_GameSession] }

/-- The state in which `JoinGameSession` returns, with a valid session interface and a local
player of net id `NetId`. -/
def afterJoinGameSession (w : World) (NetId : FUniqueNetId) : World :=
  { w with
    calls := w.calls ++
      [.AddOnFindSessionsCompleteDelegate_Handle FindSessionsCompleteDelegate,
       .FindSessions NetId w.searchObjects.length]
    OnFindSessionsCompleteDelegates :=
      w.OnFindSessionsCompleteDelegates ++ [FindSessionsCompleteDelegate]
    searchObjects := w.searchObjects ++ [sentSearch w.NewSessionSearch]
    SessionSearch := some w.searchObjects.length
    pendingFind := w.pendingFind ++ [w.searchObjects.length] }

/-- Settings as some engine could construct them. -/
def sampleNewSettings : FOnlineSessionSettings :=
  ⟨0, false, false, false, false, false, false⟩

/-- A new search context that holds no query filter. -/
def sampleNewSearch : FOnlineSessionSearch :=
  ⟨[], [], 1, false⟩

/-- A character with a valid session interface, a screen, a local player, and a service that
already holds a session of the well-known name. -/
def sampleHosting : World :=
  AMenuSystemCharacter (some ⟨"NULL", true⟩) true (some "player0") sampleNewSettings
    sampleNewSearch [NAME_GameSession]

/-- A character with a valid session interface, a screen, a local player, and an empty
service. -/
def sampleOnline : World :=
  AMenuSystemCharacter (some ⟨"NULL", true⟩) true (some "player0") sampleNewSettings
    sampleNewSearch []

/-- A character built when `IOnlineSubsystem::Get()` is null: the session interface is absent. -/
def sampleOffline : World :=
  AMenuSystemCharacter none true (some "player0") sampleNewSettings sampleNewSearch []

/-- A character with a valid session interface in a world without a local player. -/
def sampleNoPlayer : World :=
  AMenuSystemCharacter (some ⟨"NULL", true⟩) true none sampleNewSettings sampleNewSearch []

/-- The debug messages put on screen between state `w` and the later state `w2`. -/
def screenSince (w w2 : World) : List FDebugMessage :=
  w2.screen.drop w.screen.length

/-- The texts of the debug messages put on screen between `w` and the later state `w2`. -/
def messagesSince (w w2 : World) : List FString :=
  (screenSince w w2).map (fun m => m.DebugMessage)

/-- The text `"Id: <sessionId>, User: <ownerDisplayName>"` for one search result. -/
def resultText (r : FOnlineSessionSearchResult) : FString :=
  "Id: " ++ r.GetSessionIdStr ++ ", User: " ++ r.Session.OwningUserName

/-- The debug message `OnFindSessionComplete` builds for one search result. -/
def resultMessage (r : FOnlineSessionSearchResult) : FDebugMessage :=
  ⟨-1, 15, FColor.Cyan, resultText r⟩

/-- The debug message `OnCreateSessionComplete` builds. -/
def createMessage (SessionName : FName) (bWasSuccessful : Bool) : FDebugMessage :=
  if bWasSuccessful then ⟨-1, 15, FColor.Blue, "Create session: " ++ SessionName⟩
  else ⟨-1, 15, FColor.Red, "Failed to create session!"⟩

/-- A search result owned by `bob`. -/
def sampleResult : FOnlineSessionSearchResult :=
  ⟨⟨"bob", "id1"⟩⟩

/-- The state right before `OnFindSessionComplete` runs, after `JoinGameSession` on a
character with a valid interface and the service has put `results` in the search context. -/
def foundState (GEngine : Bool) (results : List FOnlineSessionSearchResult) : World :=
  let w := (JoinGameSession
    (AMenuSystemCharacter (some ⟨"NULL", true⟩) GEngine (some "player0") sampleNewSettings
      sampleNewSearch [])).state
  { w with
    pendingFind := []
    searchObjects := updateAt w.searchObjects 0 (fun s => { s with SearchResults := results }) }

/-- A character with a valid session interface built while `GEngine` is null. -/
def sampleHeadless : World :=
  AMenuSystemCharacter (some ⟨"NULL", true⟩) false (some "player0") sampleNewSettings
    sampleNewSearch []

/-- The part of the state the two operations and the service keep in step. -/
structure Linked (w : World) : Prop where
  createDelegates : w.OnCreateSessionCompleteDelegates.length =
    (w.calls.filter SessionCall.isCreateSession).length
  findDelegates : w.OnFindSessionsCompleteDelegates.length =
    (w.calls.filter SessionCall.isFindSessions).length
  pendingNames : ∀ n ∈ w.pendingCreate, n = NAME_GameSession
  pendingCreateLe : w.pendingCreate.length ≤ w.OnCreateSessionCompleteDelegates.length
  pendingFindLe : w.pendingFind.length ≤ w.OnFindSessionsCompleteDelegates.length
  searchSet : w.OnFindSessionsCompleteDelegates ≠ [] →
    ∃ p, w.SessionSearch = some p ∧ p < w.searchObjects.length

/-- The part of the service state that the teardown-before-create policy maintains. -/
structure Tidy (w : World) : Prop where
  nodup : w.sessions.Nodup
  fresh : ∀ snap ∈ w.sessionsAtCreate, NAME_GameSession ∉ snap
  counted : w.sessionsAtCreate.length = (w.calls.filter SessionCall.isCreateSession).length

/-- The engine objects an event never changes: the local player and the session interface. -/
def Anchored (LocalPlayerNetId : Option FUniqueNetId) (OnlineSessionInterface : Bool)
    (w : World) : Prop :=
  w.LocalPlayerNetId = LocalPlayerNetId ∧ w.OnlineSessionInterface = OnlineSessionInterface

/-! ## Single calls -/

theorem callsSince_of_append (w w2 : World) (l : List SessionCall)
    (h : w2.calls = w.calls ++ l) : callsSince w w2 = l := by
  simp [callsSince, h]

theorem CreateGameSession_absent (w : World) (h : w.OnlineSessionInterface = false) :
    CreateGameSession w = .returned w := by
  simp [CreateGameSession, h]

theorem JoinGameSession_absent (w : World) (h : w.OnlineSessionInterface = false) :
    JoinGameSession w = .returned w := by
  simp [JoinGameSession, h]

theorem CreateGameSession_valid (w : World) (h : w.OnlineSessionInterface = true)
    (NetId : FUniqueNetId) (hu : w.LocalPlayerNetId = some NetId) :
    CreateGameSession w = .returned
      { w with
        calls := w.calls ++ createCalls w
        sessions := w.sessions.erase NAME_GameSession
        OnCreateSessionCompleteDelegates :=
          w.OnCreateSessionCompleteDelegates ++ [CreateSessionCompleteDelegate]
        sessionsAtCreate := w.sessionsAtCreate ++ [w.sessions.erase NAME_GameSession]
        pendingCreate := w.pendingCreate ++ [NAME_GameSession] } := by
  by_cases hs : NAME_GameSession ∈ w.sessions
  · simp [CreateGameSession, h, hs, hu, createCalls, createCallsBefore,
      IOnlineSession.GetNamedSession, IOnlineSession.DestroySession,
      IOnlineSession.AddOnCreateSessionCompleteDelegate_Handle, IOnlineSession.CreateSession,
      sentSettings]
  · simp [CreateGameSession, h, hs, hu, createCalls, createCallsBefore,
      IOnlineSession.GetNamedSession, IOnlineSession.DestroySession,
      IOnlineSession.AddOnCreateSessionCompleteDelegate_Handle, IOnlineSession.CreateSession,
      sentSettings, List.erase_of_not_mem hs]

theorem CreateGameSession_nullLocalPlayer (w : World) (h : w.OnlineSessionInterface = true)
    (hu : w.LocalPlayerNetId = none) :
    CreateGameSession w = .nullLocalPlayer
      { w with
        calls := w.calls ++ createCalls w
        sessions := w.sessions.erase NAME_GameSession
        OnCreateSessionCompleteDelegates :=
          w.OnCreateSessionCompleteDelegates ++ [CreateSessionCompleteDelegate] } := by
  by_cases hs : NAME_GameSession ∈ w.sessions
  · simp [CreateGameSession, h, hs, hu, createCalls, createCallsBefore,
      IOnlineSession.GetNamedSession, IOnlineSession.DestroySession,
      IOnlineSession.AddOnCreateSessionCompleteDelegate_Handle]
  · simp [CreateGameSession, h, hs, hu, createCalls, createCallsBefore,
      IOnlineSession.GetNamedSession, IOnlineSession.DestroySession,
      IOnlineSession.AddOnCreateSessionCompleteDelegate_Handle, List.erase_of_not_mem hs]

/-- C2: with the session interface absent, `CreateGameSession` and `JoinGameSession` each
return with the state they were given: no call reaches the service, no delegate is
registered, no request is pending, `SessionSearch` and the rest of the character are
unchanged, and no handler has been entered. -/
theorem C2_absent_interface_is_noop (w : World) (h : w.OnlineSessionInterface = false) :
    (CreateGameSession w = .returned w ∧ JoinGameSession w = .returned w) ∧
    ((CreateGameSession w).state = w ∧ (JoinGameSession w).state = w) ∧
    (callsSince w (CreateGameSession w).state = [] ∧
      callsSince w (JoinGameSession w).state = []) ∧
    ((CreateGameSession w).state.OnCreateSessionCompleteDelegates =
        w.OnCreateSessionCompleteDelegates ∧
      (JoinGameSession w).state.OnFindSessionsCompleteDelegates =
        w.OnFindSessionsCompleteDelegates) ∧
    ((CreateGameSession w).state.SessionSearch = w.SessionSearch ∧
      (JoinGameSession w).state.SessionSearch = w.SessionSearch) ∧
    ((CreateGameSession w).state.invocations = w.invocations ∧
      (JoinGameSession w).state.invocations = w.invocations) := by
  have h1 := CreateGameSession_absent w h
  have h2 := JoinGameSession_absent w h
  simp [h1, h2, callsSince, Outcome.state]

theorem C2_absent_interface_is_noop_witness :
    sampleOffline.OnlineSessionInterface = false ∧
    CreateGameSession sampleOffline = .returned sampleOffline ∧
    JoinGameSession sampleOffline = .returned sampleOffline :=
  ⟨by decide, (C2_absent_interface_is_noop sampleOffline (by decide)).1⟩

theorem updateAt_append_length {α : Type} (l : List α) (a : α) (f : α → α) :
    updateAt (l ++ [a]) l.length f = l ++ [f a] := by
  induction l with
  | nil => rfl
  | cons b l ih => simp [updateAt, ih]

theorem updateAt_length {α : Type} (l : List α) (p : Nat) (f : α → α) :
    (updateAt l p f).length = l.length := by
  induction l generalizing p with
  | nil => rfl
  | cons b l ih => cases p <;> simp [updateAt, ih]

theorem JoinGameSession_valid (w : World) (h : w.OnlineSessionInterface = true)
    (NetId : FUniqueNetId) (hu : w.LocalPlayerNetId = some NetId) :
    JoinGameSession w = .returned
      { w with
        calls := w.calls ++
          [.AddOnFindSessionsCompleteDelegate_Handle FindSessionsCompleteDelegate,
           .FindSessions NetId w.searchObjects.length]
        OnFindSessionsCompleteDelegates :=
          w.OnFindSessionsCompleteDelegates ++ [FindSessionsCompleteDelegate]
        searchObjects := w.searchObjects ++ [sentSearch w.NewSessionSearch]
        SessionSearch := some w.searchObjects.length
        pendingFind := w.pendingFind ++ [w.searchObjects.length] } := by
  simp [JoinGameSession, h, hu, IOnlineSession.AddOnFindSessionsCompleteDelegate_Handle,
    MakeShareable_FOnlineSessionSearch, FOnlineSessionSearch_write,
    IOnlineSession.FindSessions, updateAt_append_length, sentSearch]

theorem JoinGameSession_nullLocalPlayer (w : World) (h : w.OnlineSessionInterface = true)
    (hu : w.LocalPlayerNetId = none) :
    JoinGameSession w = .nullLocalPlayer
      { w with
        calls := w.calls ++
          [.AddOnFindSessionsCompleteDelegate_Handle FindSessionsCompleteDelegate]
        OnFindSessionsCompleteDelegates :=
          w.OnFindSessionsCompleteDelegates ++ [FindSessionsCompleteDelegate]
        searchObjects := w.searchObjects ++ [sentSearch w.NewSessionSearch]
        SessionSearch := some w.searchObjects.length } := by
  simp [JoinGameSession, h, hu, IOnlineSession.AddOnFindSessionsCompleteDelegate_Handle,
    MakeShareable_FOnlineSessionSearch, FOnlineSessionSearch_write,
    updateAt_append_length, sentSearch]

/-- C5 (as stated) fails: with a valid session interface but no local player,
`CreateGameSession` stops at the dereference of the local player after it has registered the
delegate, and no `CreateSession` request has been sent. -/
theorem C5_counterexample_no_local_player :
    sampleNoPlayer.OnlineSessionInterface = true ∧
    sampleNoPlayer.LocalPlayerNetId = none ∧
    (CreateGameSession sampleNoPlayer).isReturned = false ∧
    callsSince sampleNoPlayer (CreateGameSession sampleNoPlayer).state =
      [.GetNamedSession NAME_GameSession,
       .AddOnCreateSessionCompleteDelegate_Handle CreateSessionCompleteDelegate] ∧
    (callsSince sampleNoPlayer (CreateGameSession sampleNoPlayer).state).filter
      SessionCall.isCreateSession = [] := by
  decide

/-- C5 (amended): with a valid session interface and a local player that has a net id,
whatever the rest of the prior state (what newly constructed settings hold included),
`CreateGameSession` returns and has sent exactly one `CreateSession` request; it is for
`NAME_GameSession`, on behalf of that net id, and its settings are isLanMatch=false,
maxPublicConnections=4, allowJoinInProgress=true, advertise=true, usesPresence=true,
allowJoinViaPresence=true, useLobbiesIfAvailable=true. -/
theorem C5_amended_one_create_request_with_fixed_settings (w : World) (NetId : FUniqueNetId)
    (h : w.OnlineSessionInterface = true) (hu : w.LocalPlayerNetId = some NetId) :
    ∃ w2, CreateGameSession w = .returned w2 ∧
      (callsSince w w2).filter SessionCall.isCreateSession =
        [SessionCall.CreateSession NetId NAME_GameSession
          { NumPublicConnections := 4
            bShouldAdvertise := true
            bAllowJoinInProgress := true
            bIsLANMatch := false
            bUsesPresence := true
            bAllowJoinViaPresence := true
            bUseLobbiesIfAvailable := true }] ∧
      w2.pendingCreate = w.pendingCreate ++ [NAME_GameSession] := by
  refine ⟨_, CreateGameSession_valid w h NetId hu, ?_, rfl⟩
  rw [callsSince_of_append _ _ (createCalls w) rfl]
  by_cases hs : NAME_GameSession ∈ w.sessions <;>
    simp [createCalls, createCallsBefore, hs, hu, SessionCall.isCreateSession, sentSettings]

theorem C5_amended_one_create_request_with_fixed_settings_witness :
    sampleHosting.OnlineSessionInterface = true ∧
    sampleHosting.LocalPlayerNetId = some "player0" ∧
    ∃ w2, CreateGameSession sampleHosting = .returned w2 ∧
      (callsSince sampleHosting w2).filter SessionCall.isCreateSession =
        [SessionCall.CreateSession "player0" NAME_GameSession
          { NumPublicConnections := 4
            bShouldAdvertise := true
            bAllowJoinInProgress := true
            bIsLANMatch := false
            bUsesPresence := true
            bAllowJoinViaPresence := true
            bUseLobbiesIfAvailable := true }] ∧
      w2.pendingCreate = sampleHosting.pendingCreate ++ [NAME_GameSession] :=
  ⟨by decide, by decide,
    C5_amended_one_create_request_with_fixed_settings sampleHosting "player0"
      (by decide) (by decide)⟩

theorem OnCreateSessionComplete_eq (w : World) (n : FName) (b : Bool) :
    OnCreateSessionComplete w n b =
      { w with
        invocations := w.invocations ++ [Invocation.OnCreateSessionComplete n b]
        screen := w.screen ++ (if w.GEngine then [createMessage n b] else []) } := by
  cases b <;> cases hG : w.GEngine <;>
    simp [OnCreateSessionComplete, AddOnScreenDebugMessage, createMessage, hG]

theorem foldl_OnFindSessionComplete_body (rs : List FOnlineSessionSearchResult) (w : World) :
    rs.foldl OnFindSessionComplete_body w =
      { w with screen := w.screen ++ (if w.GEngine then rs.map resultMessage else []) } := by
  induction rs generalizing w with
  | nil => simp
  | cons r rs ih =>
    rw [List.foldl_cons, ih]
    cases hG : w.GEngine <;>
      simp [OnFindSessionComplete_body, AddOnScreenDebugMessage, resultMessage, resultText, hG]

theorem OnFindSessionComplete_eq (w : World) (b : Bool) (p : Nat) (s : FOnlineSessionSearch)
    (hp : w.SessionSearch = some p) (hs : w.searchObjects[p]? = some s) :
    OnFindSessionComplete w b =
      some { w with
        invocations := w.invocations ++ [Invocation.OnFindSessionComplete b]
        screen := w.screen ++ (if w.GEngine then s.SearchResults.map resultMessage else []) } := by
  simp [OnFindSessionComplete, hp, hs, foldl_OnFindSessionComplete_body]

theorem screenSince_of_append (w w2 : World) (l : List FDebugMessage)
    (h : w2.screen = w.screen ++ l) : screenSince w w2 = l := by
  simp [screenSince, h]

/-- C4 (as stated) fails: a find completion delivered with success=false to a character whose
search context holds no result puts nothing on screen although `GEngine` is there; and a
create completion delivered with success=false while `GEngine` is null puts nothing on
screen either. -/
theorem C4_counterexample_silent_failures :
    (foundState true []).GEngine = true ∧
    (OnFindSessionComplete (foundState true []) false).map (messagesSince (foundState true []))
      = some [] ∧
    sampleHeadless.GEngine = false ∧
    messagesSince sampleHeadless (OnCreateSessionComplete sampleHeadless NAME_GameSession false)
      = [] := by
  decide

/-- C4 (amended): for every create completion delivered with success=false while `GEngine`
is non-null, `OnCreateSessionComplete` puts exactly one message on screen, the red text
"Failed to create session!"; and for success=false neither handler makes a call on the
session interface, queues a request or changes what the service holds. -/
theorem C4_amended_create_failure_reported_no_retry (w : World) (n : FName) :
    (w.GEngine = true →
      screenSince w (OnCreateSessionComplete w n false) =
        [⟨-1, 15, FColor.Red, "Failed to create session!"⟩]) ∧
    ((OnCreateSessionComplete w n false).calls = w.calls ∧
      (OnCreateSessionComplete w n false).pendingCreate = w.pendingCreate ∧
      (OnCreateSessionComplete w n false).pendingFind = w.pendingFind ∧
      (OnCreateSessionComplete w n false).sessions = w.sessions) ∧
    (∀ w2, OnFindSessionComplete w false = some w2 →
      w2.calls = w.calls ∧ w2.pendingCreate = w.pendingCreate ∧
      w2.pendingFind = w.pendingFind ∧ w2.sessions = w.sessions) := by
  refine ⟨?_, ?_, ?_⟩
  · intro hG
    apply screenSince_of_append
    rw [OnCreateSessionComplete_eq]
    simp [hG, createMessage]
  · rw [OnCreateSessionComplete_eq]
    simp
  · intro w2 h2
    cases hp : w.SessionSearch with
    | none => simp [OnFindSessionComplete, hp] at h2
    | some p =>
      cases hs : w.searchObjects[p]? with
      | none => simp [OnFindSessionComplete, hp, hs] at h2
      | some s =>
        rw [OnFindSessionComplete_eq w false p s hp hs] at h2
        cases h2
        simp

theorem C4_amended_create_failure_reported_no_retry_witness :
    sampleOnline.GEngine = true ∧
    screenSince sampleOnline (OnCreateSessionComplete sampleOnline NAME_GameSession false) =
      [⟨-1, 15, FColor.Red, "Failed to create session!"⟩] :=
  ⟨by decide,
    (C4_amended_create_failure_reported_no_retry sampleOnline NAME_GameSession).1 (by decide)⟩

/-- C7 (as stated) fails: with `GEngine` null, `OnFindSessionComplete` emits no message
although the search context holds one result. -/
theorem C7_counterexample_null_GEngine :
    (foundState false [sampleResult]).SessionSearch = some 0 ∧
    (foundState false [sampleResult]).searchObjects[0]?.map (fun s => s.SearchResults)
      = some [sampleResult] ∧
    (OnFindSessionComplete (foundState false [sampleResult]) true).map
      (messagesSince (foundState false [sampleResult])) = some [] ∧
    [sampleResult].map resultText = ["Id: id1, User: bob"] := by
  decide

/-- C7 (amended): when `SessionSearch` points to a search context, `OnFindSessionComplete`
returns and, while `GEngine` is non-null, the messages it emits are exactly the results of
that context mapped in order to "Id: <sessionId>, User: <ownerDisplayName>" (cyan, key -1,
15 seconds): one per result, none for an empty list; while `GEngine` is null it emits none. -/
theorem C7_amended_one_message_per_result (w : World) (b : Bool) (p : Nat)
    (s : FOnlineSessionSearch) (hp : w.SessionSearch = some p)
    (hs : w.searchObjects[p]? = some s) :
    ∃ w2, OnFindSessionComplete w b = some w2 ∧
      messagesSince w w2 =
        (if w.GEngine then
          s.SearchResults.map (fun r =>
            "Id: " ++ r.GetSessionIdStr ++ ", User: " ++ r.Session.OwningUserName)
         else []) ∧
      screenSince w w2 = (if w.GEngine then s.SearchResults.map resultMessage else []) ∧
      (w.GEngine = true → (messagesSince w w2).length = s.SearchResults.length) := by
  refine ⟨_, OnFindSessionComplete_eq w b p s hp hs, ?_⟩
  have hsc : screenSince w
      { w with
        invocations := w.invocations ++ [Invocation.OnFindSessionComplete b]
        screen := w.screen ++ (if w.GEngine then s.SearchResults.map resultMessage else []) }
      = (if w.GEngine then s.SearchResults.map resultMessage else []) :=
    screenSince_of_append _ _ _ rfl
  refine ⟨?_, hsc, ?_⟩
  · rw [messagesSince, hsc]
    cases w.GEngine <;> simp [resultMessage, resultText]
  · intro hG
    rw [messagesSince, hsc]
    simp [hG]

theorem C7_amended_one_message_per_result_witness :
    ∃ w2, OnFindSessionComplete (foundState true [sampleResult]) true = some w2 ∧
      messagesSince (foundState true [sampleResult]) w2 = ["Id: id1, User: bob"] := by
  obtain ⟨w2, h1, h2, _⟩ :=
    C7_amended_one_message_per_result (foundState true [sampleResult]) true 0
      { sentSearch sampleNewSearch with SearchResults := [sampleResult] } (by decide) (by decide)
  exact ⟨w2, h1, h2⟩

/-- C8 (as stated) fails: with `GEngine` null, `OnCreateSessionComplete(n, true)` and
`OnCreateSessionComplete(n, false)` emit no message at all. -/
theorem C8_counterexample_null_GEngine :
    sampleHeadless.GEngine = false ∧
    messagesSince sampleHeadless (OnCreateSessionComplete sampleHeadless NAME_GameSession true)
      = [] ∧
    messagesSince sampleHeadless (OnCreateSessionComplete sampleHeadless NAME_GameSession false)
      = [] := by
  decide

/-- C8 (amended): for every session name `n`, while `GEngine` is non-null
`OnCreateSessionComplete(n, true)` emits exactly one message, "Create session: " followed by
`n`, and `OnCreateSessionComplete(n, false)` emits exactly one message, "Failed to create
session!", which does not depend on `n`; while `GEngine` is null neither emits a message. -/
theorem C8_amended_one_message_per_create_completion (w : World) (n : FName) :
    messagesSince w (OnCreateSessionComplete w n true) =
      (if w.GEngine then ["Create session: " ++ n] else []) ∧
    messagesSince w (OnCreateSessionComplete w n false) =
      (if w.GEngine then ["Failed to create session!"] else []) ∧
    screenSince w (OnCreateSessionComplete w n true) =
      (if w.GEngine then [⟨-1, 15, FColor.Blue, "Create session: " ++ n⟩] else []) ∧
    screenSince w (OnCreateSessionComplete w n false) =
      (if w.GEngine then [⟨-1, 15, FColor.Red, "Failed to create session!"⟩] else []) := by
  have h1 : ∀ b, screenSince w (OnCreateSessionComplete w n b) =
      (if w.GEngine then [createMessage n b] else []) := by
    intro b
    apply screenSince_of_append
    rw [OnCreateSessionComplete_eq]
  refine ⟨?_, ?_, ?_, ?_⟩
  · rw [messagesSince, h1]; cases w.GEngine <;> simp [createMessage]
  · rw [messagesSince, h1]; cases w.GEngine <;> simp [createMessage]
  · rw [h1]; cases w.GEngine <;> simp [createMessage]
  · rw [h1]; cases w.GEngine <;> simp [createMessage]

/-! ## Sequences of events -/

theorem createCalls_filter_create (w : World) (NetId : FUniqueNetId)
    (hu : w.LocalPlayerNetId = some NetId) :
    ((createCalls w).filter SessionCall.isCreateSession).length = 1 := by
  unfold createCalls createCallsBefore
  split <;> simp [hu, SessionCall.isCreateSession]

theorem createCalls_filter_find (w : World) :
    (createCalls w).filter SessionCall.isFindSessions = [] := by
  unfold createCalls createCallsBefore
  cases w.LocalPlayerNetId <;> split <;> simp [SessionCall.isFindSessions]

theorem CreateGameSession_outcome (w : World) :
    (w.OnlineSessionInterface = false ∧ CreateGameSession w = .returned w) ∨
    (w.OnlineSessionInterface = true ∧ (∃ NetId, w.LocalPlayerNetId = some NetId) ∧
      CreateGameSession w = .returned (afterCreateGameSession w)) ∨
    (w.OnlineSessionInterface = true ∧ w.LocalPlayerNetId = none ∧
      (CreateGameSession w).toExcept = .error Crash.LocalPlayer) := by
  cases h : w.OnlineSessionInterface with
  | false => exact Or.inl ⟨rfl, CreateGameSession_absent w h⟩
  | true =>
    cases hu : w.LocalPlayerNetId with
    | none =>
      refine Or.inr (Or.inr ⟨rfl, rfl, ?_⟩)
      rw [CreateGameSession_nullLocalPlayer w h hu]; rfl
    | some NetId =>
      exact Or.inr (Or.inl ⟨rfl, ⟨NetId, rfl⟩, CreateGameSession_valid w h NetId hu⟩)

theorem JoinGameSession_outcome (w : World) :
    (w.OnlineSessionInterface = false ∧ JoinGameSession w = .returned w) ∨
    (w.OnlineSessionInterface = true ∧
      (∃ NetId, w.LocalPlayerNetId = some NetId ∧
        JoinGameSession w = .returned (afterJoinGameSession w NetId))) ∨
    (w.OnlineSessionInterface = true ∧ w.LocalPlayerNetId = none ∧
      (JoinGameSession w).toExcept = .error Crash.LocalPlayer) := by
  cases h : w.OnlineSessionInterface with
  | false => exact Or.inl ⟨rfl, JoinGameSession_absent w h⟩
  | true =>
    cases hu : w.LocalPlayerNetId with
    | none =>
      refine Or.inr (Or.inr ⟨rfl, rfl, ?_⟩)
      rw [JoinGameSession_nullLocalPlayer w h hu]; rfl
    | some NetId =>
      exact Or.inr (Or.inl ⟨rfl, NetId, rfl, JoinGameSession_valid w h NetId hu⟩)

theorem TriggerOnCreate_fold (ds : List FOnCreateSessionCompleteDelegate) (w : World)
    (n : FName) (b : Bool) :
    ds.foldl (fun w d => d.Execute w n b) w =
      { w with
        invocations := w.invocations ++
          List.replicate ds.length (Invocation.OnCreateSessionComplete n b)
        screen := w.screen ++
          (if w.GEngine then List.replicate ds.length (createMessage n b) else []) } := by
  induction ds generalizing w with
  | nil => simp
  | cons d ds ih =>
    cases d
    rw [List.foldl_cons, ih]
    simp only [FOnCreateSessionCompleteDelegate.Execute, OnCreateSessionComplete_eq]
    cases hG : w.GEngine <;> simp [List.replicate_succ]

theorem TriggerOnFind_fold (ds : List FOnFindSessionsCompleteDelegate) (w : World) (b : Bool)
    (p : Nat) (s : FOnlineSessionSearch) (hp : w.SessionSearch = some p)
    (hs : w.searchObjects[p]? = some s) :
    ∃ w2, ds.foldlM (fun w d => d.Execute w b) w = some w2 ∧
      w2.invocations = w.invocations ++
        List.replicate ds.length (Invocation.OnFindSessionComplete b) ∧
      w2 = { w with screen := w2.screen, invocations := w2.invocations } := by
  induction ds generalizing w with
  | nil => exact ⟨w, rfl, by simp, rfl⟩
  | cons d ds ih =>
    cases d
    have h1 := OnFindSessionComplete_eq w b p s hp hs
    obtain ⟨w2, h2, h3, h4⟩ := ih { w with
        invocations := w.invocations ++ [Invocation.OnFindSessionComplete b]
        screen := w.screen ++ (if w.GEngine then s.SearchResults.map resultMessage else []) }
        hp hs
    refine ⟨w2, ?_, ?_, ?_⟩
    · simp only [List.foldlM_cons, FOnFindSessionsCompleteDelegate.Execute, h1]
      exact h2
    · rw [h3]; simp [List.replicate_succ]
    · rw [h4]

theorem completeCreateSession_nil (w : World) (b : Bool) (h : w.pendingCreate = []) :
    completeCreateSession w b = w := by
  simp [completeCreateSession, h]

theorem completeCreateSession_cons (w : World) (b : Bool) (n : FName) (rest : List FName)
    (h : w.pendingCreate = n :: rest) :
    completeCreateSession w b =
      { w with
        pendingCreate := rest
        sessions := if b then w.sessions.insert n else w.sessions
        invocations := w.invocations ++
          List.replicate w.OnCreateSessionCompleteDelegates.length
            (Invocation.OnCreateSessionComplete n b)
        screen := w.screen ++
          (if w.GEngine then
            List.replicate w.OnCreateSessionCompleteDelegates.length (createMessage n b)
           else []) } := by
  simp only [completeCreateSession, h, TriggerOnCreateSessionCompleteDelegates,
    TriggerOnCreate_fold]

theorem completeFindSessions_none (w : World) (k : Nat) (b : Bool)
    (rs : List FOnlineSessionSearchResult) (h : w.pendingFind[k]? = none) :
    completeFindSessions w k b rs = some w := by
  simp [completeFindSessions, h]

theorem getElem?_updateAt_isSome {α : Type} (l : List α) (p q : Nat) (f : α → α)
    (hq : q < l.length) : ∃ a, (updateAt l p f)[q]? = some a := by
  have : q < (updateAt l p f).length := by rw [updateAt_length]; exact hq
  exact ⟨(updateAt l p f)[q], List.getElem?_eq_getElem this⟩

theorem completeFindSessions_some (w : World) (k : Nat) (b : Bool)
    (rs : List FOnlineSessionSearchResult) (p : Nat) (h : w.pendingFind[k]? = some p)
    (hset : w.OnFindSessionsCompleteDelegates ≠ [] →
      ∃ q, w.SessionSearch = some q ∧ q < w.searchObjects.length) :
    ∃ w2, completeFindSessions w k b rs = some w2 ∧
      w2.invocations = w.invocations ++
        List.replicate w.OnFindSessionsCompleteDelegates.length
          (Invocation.OnFindSessionComplete b) ∧
      w2 = { w with
        pendingFind := w.pendingFind.eraseIdx k
        searchObjects :=
          updateAt w.searchObjects p (fun s => { s with SearchResults := rs })
        screen := w2.screen
        invocations := w2.invocations } := by
  by_cases hd : w.OnFindSessionsCompleteDelegates = []
  · refine ⟨{ w with
        pendingFind := w.pendingFind.eraseIdx k
        searchObjects :=
          updateAt w.searchObjects p (fun s => { s with SearchResults := rs }) }, ?_, ?_, rfl⟩
    · simp [completeFindSessions, h, TriggerOnFindSessionsCompleteDelegates, hd]
    · simp [hd]
  · obtain ⟨q, hq1, hq2⟩ := hset hd
    obtain ⟨s, hs⟩ := getElem?_updateAt_isSome w.searchObjects p q
      (fun s => { s with SearchResults := rs }) hq2
    obtain ⟨w2, h2, h3, h4⟩ := TriggerOnFind_fold w.OnFindSessionsCompleteDelegates
      { w with
        pendingFind := w.pendingFind.eraseIdx k
        searchObjects :=
          updateAt w.searchObjects p (fun s => { s with SearchResults := rs }) }
      b q s hq1 hs
    refine ⟨w2, ?_, h3, h4⟩
    simp only [completeFindSessions, h, TriggerOnFindSessionsCompleteDelegates]
    exact h2

theorem Linked_init (sub : Option IOnlineSubsystem) (G : Bool) (uid : Option FUniqueNetId)
    (settings : FOnlineSessionSettings) (search : FOnlineSessionSearch)
    (sessions : List FName) :
    Linked (AMenuSystemCharacter sub G uid settings search sessions) := by
  cases sub <;> cases G <;>
    exact ⟨rfl, rfl, by simp [AMenuSystemCharacter, AddOnScreenDebugMessage],
      by simp [AMenuSystemCharacter, AddOnScreenDebugMessage],
      by simp [AMenuSystemCharacter, AddOnScreenDebugMessage],
      by simp [AMenuSystemCharacter, AddOnScreenDebugMessage]⟩

theorem Anchored_init (sub : Option IOnlineSubsystem) (G : Bool) (uid : Option FUniqueNetId)
    (settings : FOnlineSessionSettings) (search : FOnlineSessionSearch)
    (sessions : List FName) :
    Anchored uid (AMenuSystemCharacter sub G uid settings search sessions).OnlineSessionInterface
      (AMenuSystemCharacter sub G uid settings search sessions) := by
  cases sub <;> cases G <;> exact ⟨rfl, rfl⟩

theorem Linked_afterCreateGameSession (w : World) (NetId : FUniqueNetId)
    (hu : w.LocalPlayerNetId = some NetId) (hl : Linked w) :
    Linked (afterCreateGameSession w) := by
  refine ⟨?_, ?_, ?_, ?_, hl.pendingFindLe, hl.searchSet⟩
  · simp [afterCreateGameSession, List.filter_append, createCalls_filter_create w NetId hu,
      hl.createDelegates]
  · simp [afterCreateGameSession, List.filter_append, createCalls_filter_find,
      hl.findDelegates]
  · intro n hn
    simp [afterCreateGameSession] at hn
    rcases hn with hn | hn
    · exact hl.pendingNames n hn
    · exact hn
  · simpa [afterCreateGameSession] using hl.pendingCreateLe

theorem Linked_afterJoinGameSession (w : World) (NetId : FUniqueNetId) (hl : Linked w) :
    Linked (afterJoinGameSession w NetId) := by
  refine ⟨?_, ?_, hl.pendingNames, hl.pendingCreateLe, ?_, ?_⟩
  · simp [afterJoinGameSession, List.filter_append, SessionCall.isCreateSession,
      hl.createDelegates]
  · simp [afterJoinGameSession, List.filter_append, SessionCall.isFindSessions,
      hl.findDelegates]
  · simpa [afterJoinGameSession] using hl.pendingFindLe
  · intro _
    exact ⟨w.searchObjects.length, rfl, by simp [afterJoinGameSession]⟩

theorem Linked_completeCreateSession (w : World) (b : Bool) (hl : Linked w) :
    Linked (completeCreateSession w b) := by
  cases h : w.pendingCreate with
  | nil => rw [completeCreateSession_nil w b h]; exact hl
  | cons n rest =>
    rw [completeCreateSession_cons w b n rest h]
    refine ⟨hl.createDelegates, hl.findDelegates, ?_, ?_, hl.pendingFindLe, hl.searchSet⟩
    · intro m hm
      exact hl.pendingNames m (by rw [h]; exact List.mem_cons_of_mem _ hm)
    · have := hl.pendingCreateLe
      rw [h] at this
      exact Nat.le_of_succ_le this

theorem Anchored_completeCreateSession (u : Option FUniqueNetId) (v : Bool) (w : World)
    (b : Bool) (ha : Anchored u v w) : Anchored u v (completeCreateSession w b) := by
  cases h : w.pendingCreate with
  | nil => rw [completeCreateSession_nil w b h]; exact ha
  | cons n rest => rw [completeCreateSession_cons w b n rest h]; exact ha

theorem Tidy_afterCreateGameSession (w : World) (NetId : FUniqueNetId)
    (hu : w.LocalPlayerNetId = some NetId) (ht : Tidy w) :
    Tidy (afterCreateGameSession w) := by
  refine ⟨ht.nodup.erase _, ?_, ?_⟩
  · intro snap hsnap
    simp [afterCreateGameSession] at hsnap
    rcases hsnap with hsnap | hsnap
    · exact ht.fresh snap hsnap
    · rw [hsnap]; exact ht.nodup.not_mem_erase
  · simp [afterCreateGameSession, List.filter_append, createCalls_filter_create w NetId hu,
      ht.counted]

theorem Tidy_afterJoinGameSession (w : World) (NetId : FUniqueNetId) (ht : Tidy w) :
    Tidy (afterJoinGameSession w NetId) := by
  refine ⟨ht.nodup, ht.fresh, ?_⟩
  simp [afterJoinGameSession, List.filter_append, SessionCall.isCreateSession, ht.counted]

theorem Tidy_completeCreateSession (w : World) (b : Bool) (ht : Tidy w) :
    Tidy (completeCreateSession w b) := by
  cases h : w.pendingCreate with
  | nil => rw [completeCreateSession_nil w b h]; exact ht
  | cons n rest =>
    rw [completeCreateSession_cons w b n rest h]
    refine ⟨?_, ht.fresh, ht.counted⟩
    cases b
    · exact ht.nodup
    · exact ht.nodup.insert

theorem Tidy_init (sub : Option IOnlineSubsystem) (G : Bool) (uid : Option FUniqueNetId)
    (settings : FOnlineSessionSettings) (search : FOnlineSessionSearch) :
    Tidy (AMenuSystemCharacter sub G uid settings search []) := by
  cases sub <;> cases G <;>
    exact ⟨by simp [AMenuSystemCharacter, AddOnScreenDebugMessage],
      by simp [AMenuSystemCharacter, AddOnScreenDebugMessage], rfl⟩

/-- One event keeps `Linked` and the anchors, and keeps `Tidy` where it held; or it stops at
the dereference of a local player that is not there. -/
theorem step_invariant (u : Option FUniqueNetId) (v : Bool) (T : Prop) (w : World) (e : Event)
    (hl : Linked w) (ha : Anchored u v w) (ht : T → Tidy w) :
    (∃ w2, step w e = .ok w2 ∧ Linked w2 ∧ Anchored u v w2 ∧ (T → Tidy w2)) ∨
    (step w e = .error Crash.LocalPlayer ∧ u = none ∧ v = true) := by
  cases e with
  | CreateGameSession =>
    rcases CreateGameSession_outcome w with
      ⟨_, h2⟩ | ⟨_, ⟨NetId, hu⟩, h2⟩ | ⟨h1, hu, h2⟩
    · exact Or.inl ⟨w, by simp [step, h2, Outcome.toExcept], hl, ha, ht⟩
    · exact Or.inl ⟨_, by simp [step, h2, Outcome.toExcept],
        Linked_afterCreateGameSession w NetId hu hl, ha,
        fun t => Tidy_afterCreateGameSession w NetId hu (ht t)⟩
    · exact Or.inr ⟨h2, ha.1 ▸ hu, ha.2 ▸ h1⟩
  | JoinGameSession =>
    rcases JoinGameSession_outcome w with ⟨_, h2⟩ | ⟨_, NetId, _, h2⟩ | ⟨h1, hu, h2⟩
    · exact Or.inl ⟨w, by simp [step, h2, Outcome.toExcept], hl, ha, ht⟩
    · exact Or.inl ⟨_, by simp [step, h2, Outcome.toExcept],
        Linked_afterJoinGameSession w NetId hl, ha,
        fun t => Tidy_afterJoinGameSession w NetId (ht t)⟩
    · exact Or.inr ⟨h2, ha.1 ▸ hu, ha.2 ▸ h1⟩
  | CreateSessionComplete b =>
    exact Or.inl ⟨_, rfl, Linked_completeCreateSession w b hl,
      Anchored_completeCreateSession u v w b ha,
      fun t => Tidy_completeCreateSession w b (ht t)⟩
  | FindSessionsComplete k b rs =>
    left
    cases h : w.pendingFind[k]? with
    | none =>
      exact ⟨w, by simp [step, completeFindSessions_none w k b rs h], hl, ha, ht⟩
    | some p =>
      obtain ⟨w2, h2, _, h4⟩ := completeFindSessions_some w k b rs p h hl.searchSet
      refine ⟨w2, by simp [step, h2], ?_, ?_, ?_⟩
      · rw [h4]
        refine ⟨hl.createDelegates, hl.findDelegates, hl.pendingNames, hl.pendingCreateLe,
          ?_, ?_⟩
        · exact Nat.le_trans (List.length_eraseIdx_le _ _) hl.pendingFindLe
        · intro hd
          obtain ⟨q, hq1, hq2⟩ := hl.searchSet hd
          exact ⟨q, hq1, by simpa [updateAt_length] using hq2⟩
      · rw [h4]; exact ha
      · intro t
        rw [h4]
        exact ⟨(ht t).nodup, (ht t).fresh, (ht t).counted⟩

theorem run_cons (w : World) (e : Event) (evs : List Event) :
    run w (e :: evs) = (step w e).bind (fun w2 => run w2 evs) := by
  simp [run, List.foldlM_cons]
  rfl

/-- A run keeps `Linked` and the anchors, and keeps `Tidy` where it held at the start; or it
stops at the dereference of a local player that is not there. It never stops at a null
`SessionSearch`. -/
theorem run_invariant (u : Option FUniqueNetId) (v : Bool) (T : Prop) (evs : List Event)
    (w : World) (hl : Linked w) (ha : Anchored u v w) (ht : T → Tidy w) :
    (∃ w2, run w evs = .ok w2 ∧ Linked w2 ∧ Anchored u v w2 ∧ (T → Tidy w2)) ∨
    (run w evs = .error Crash.LocalPlayer ∧ u = none ∧ v = true) := by
  induction evs generalizing w with
  | nil => exact Or.inl ⟨w, rfl, hl, ha, ht⟩
  | cons e evs ih =>
    rcases step_invariant u v T w e hl ha ht with ⟨w1, h1, hl1, ha1, ht1⟩ | ⟨h1, hc⟩
    · rcases ih w1 hl1 ha1 ht1 with ⟨w2, h2, hr⟩ | ⟨h2, hc⟩
      · exact Or.inl ⟨w2, by rw [run_cons, h1]; exact h2, hr⟩
      · exact Or.inr ⟨by rw [run_cons, h1]; exact h2, hc⟩
    · exact Or.inr ⟨by rw [run_cons, h1]; rfl, hc⟩

/-! ## Claims about sequences of events -/

/-- C3 (as stated) fails: after two `CreateGameSession` calls, each followed by the
completion of its request, two create requests have been issued but
`OnCreateSessionComplete` has been entered three times (once for the first completion, twice
for the second); the same holds for `JoinGameSession` and `OnFindSessionComplete`. -/
theorem C3_counterexample_second_request_notifies_twice :
    (run sampleOnline
        [.CreateGameSession, .CreateSessionComplete true,
         .CreateGameSession, .CreateSessionComplete true]).toOption.map
      (fun w => ((w.calls.filter SessionCall.isCreateSession).length, w.invocations)) =
      some (2, [Invocation.OnCreateSessionComplete NAME_GameSession true,
                Invocation.OnCreateSessionComplete NAME_GameSession true,
                Invocation.OnCreateSessionComplete NAME_GameSession true]) ∧
    (run sampleOnline
        [.JoinGameSession, .FindSessionsComplete 0 true [],
         .JoinGameSession, .FindSessionsComplete 0 true []]).toOption.map
      (fun w => ((w.calls.filter SessionCall.isFindSessions).length, w.invocations)) =
      some (2, [Invocation.OnFindSessionComplete true,
                Invocation.OnFindSessionComplete true,
                Invocation.OnFindSessionComplete true]) := by
  decide

/-- C3 (amended): every sequence of `CreateGameSession` and `JoinGameSession` calls and
completions, started on a newly constructed character, runs to a state (it can only stop
where the session interface is valid and there is no local player, at the dereference of that
player). In the state reached the delegate of each kind is registered once per request of
that kind issued so far (no registration is ever removed), so the completion of a create
request enters `OnCreateSessionComplete` exactly as many times as create requests have been
issued so far, and the completion of a find request enters `OnFindSessionComplete` exactly as
many times as find requests have been issued so far: once for a first request completed
before a second is issued, never zero times. -/
theorem C3_amended_one_invocation_per_registration (sub : Option IOnlineSubsystem) (G : Bool)
    (uid : Option FUniqueNetId) (settings : FOnlineSessionSettings)
    (search : FOnlineSessionSearch) (sessions : List FName) (evs : List Event) :
    (∃ w, run (AMenuSystemCharacter sub G uid settings search sessions) evs = .ok w ∧
      w.OnCreateSessionCompleteDelegates.length =
        (w.calls.filter SessionCall.isCreateSession).length ∧
      w.OnFindSessionsCompleteDelegates.length =
        (w.calls.filter SessionCall.isFindSessions).length ∧
      (∀ b, w.pendingCreate ≠ [] →
        (w.calls.filter SessionCall.isCreateSession).length ≠ 0 ∧
        (completeCreateSession w b).invocations = w.invocations ++
          List.replicate (w.calls.filter SessionCall.isCreateSession).length
            (Invocation.OnCreateSessionComplete NAME_GameSession b)) ∧
      (∀ k b rs, k < w.pendingFind.length →
        (w.calls.filter SessionCall.isFindSessions).length ≠ 0 ∧
        ∃ w2, completeFindSessions w k b rs = some w2 ∧
          w2.invocations = w.invocations ++
            List.replicate (w.calls.filter SessionCall.isFindSessions).length
              (Invocation.OnFindSessionComplete b))) ∨
    (run (AMenuSystemCharacter sub G uid settings search sessions) evs =
        .error Crash.LocalPlayer ∧
      uid = none ∧
      (AMenuSystemCharacter sub G uid settings search sessions).OnlineSessionInterface =
        true) := by
  rcases run_invariant uid _ False evs _ (Linked_init sub G uid settings search sessions)
      (Anchored_init sub G uid settings search sessions) False.elim with
    ⟨w, hr, hl, _, _⟩ | hc
  · left
    refine ⟨w, hr, hl.createDelegates, hl.findDelegates, ?_, ?_⟩
    · intro b hp
      cases h : w.pendingCreate with
      | nil => exact absurd h hp
      | cons n rest =>
        have hn : n = NAME_GameSession :=
          hl.pendingNames n (by rw [h]; exact List.mem_cons_self _ _)
        subst hn
        refine ⟨?_, ?_⟩
        · have h1 := hl.pendingCreateLe
          rw [h, hl.createDelegates] at h1
          exact Nat.ne_of_gt (Nat.lt_of_lt_of_le (Nat.succ_pos _) h1)
        · rw [completeCreateSession_cons w b _ rest h, hl.createDelegates]
    · intro k b rs hk
      have hk2 : w.pendingFind[k]? = some w.pendingFind[k] := List.getElem?_eq_getElem hk
      obtain ⟨w2, h2, h3, _⟩ := completeFindSessions_some w k b rs _ hk2 hl.searchSet
      refine ⟨?_, w2, h2, by rw [h3, hl.findDelegates]⟩
      have h1 := hl.pendingFindLe
      rw [hl.findDelegates] at h1
      exact Nat.ne_of_gt (Nat.lt_of_lt_of_le (Nat.lt_of_le_of_lt (Nat.zero_le _) hk) h1)
  · exact Or.inr hc

theorem first_create_completion_notifies_once :
    (run sampleOnline [.CreateGameSession, .CreateSessionComplete false]).toOption.map
      (fun w => w.invocations) =
      some [Invocation.OnCreateSessionComplete NAME_GameSession false] := by
  decide

theorem reachable_hosting :
    (run sampleOnline [.CreateGameSession, .CreateSessionComplete true]).toOption.map
      (fun w => w.sessions) = some [NAME_GameSession] := by
  decide

theorem run_stops_without_local_player :
    run sampleNoPlayer [.CreateGameSession] = .error Crash.LocalPlayer := by
  rfl

/-- With a local player, or without a session interface, every sequence of events runs to a
state. -/
theorem run_total (sub : Option IOnlineSubsystem) (G : Bool) (uid : Option FUniqueNetId)
    (settings : FOnlineSessionSettings) (search : FOnlineSessionSearch)
    (sessions : List FName) (evs : List Event)
    (h : uid ≠ none ∨
      (AMenuSystemCharacter sub G uid settings search sessions).OnlineSessionInterface
        = false) :
    ∃ w, run (AMenuSystemCharacter sub G uid settings search sessions) evs = .ok w := by
  rcases run_invariant uid _ False evs _ (Linked_init sub G uid settings search sessions)
      (Anchored_init sub G uid settings search sessions) False.elim with
    ⟨w, hr, _⟩ | ⟨_, hu, hv⟩
  · exact ⟨w, hr⟩
  · rcases h with h | h
    · exact absurd hu h
    · rw [hv] at h; cases h

/-- C9: over the service model that keeps the named sessions as a set, removes the name on
`DestroySession` and adds it when a `CreateSession` request completes successfully, every
sequence of events (calls of `CreateGameSession`, create completions, and also
`JoinGameSession` calls and find completions) started on a character built on an empty
service runs to a state (it can only stop where the session interface is valid and there is
no local player, at the dereference of that player, before any `CreateSession`). The state
reached holds at most one session named `NAME_GameSession`, and every `CreateSession` request
sent so far was sent while the service held no session of that name. -/
theorem C9_at_most_one_session_and_create_on_empty_slot (sub : Option IOnlineSubsystem)
    (G : Bool) (uid : Option FUniqueNetId) (settings : FOnlineSessionSettings)
    (search : FOnlineSessionSearch) (evs : List Event) :
    (∃ w, run (AMenuSystemCharacter sub G uid settings search []) evs = .ok w ∧
      w.sessions.count NAME_GameSession ≤ 1 ∧
      w.sessions.Nodup ∧
      w.sessionsAtCreate.length = (w.calls.filter SessionCall.isCreateSession).length ∧
      (∀ snap ∈ w.sessionsAtCreate, NAME_GameSession ∉ snap)) ∨
    (run (AMenuSystemCharacter sub G uid settings search []) evs = .error Crash.LocalPlayer ∧
      uid = none ∧
      (AMenuSystemCharacter sub G uid settings search []).OnlineSessionInterface = true) := by
  rcases run_invariant uid _ True evs _ (Linked_init sub G uid settings search [])
      (Anchored_init sub G uid settings search [])
      (fun _ => Tidy_init sub G uid settings search) with
    ⟨w, hr, _, _, ht⟩ | hc
  · have ht := ht trivial
    exact Or.inl ⟨w, hr, List.nodup_iff_count_le_one.mp ht.nodup _, ht.nodup, ht.counted,
      ht.fresh⟩
  · exact Or.inr hc

/-- C10: a newly constructed character has a null `SessionSearch` and no find delegate
registered. No sequence of `CreateGameSession` and `JoinGameSession` calls (and completions
delivered by the service) started on it ever stops at a null `SessionSearch`: it runs to a
state (or stops, where the session interface is valid and there is no local player, at the
dereference of that player inside an operation). In the state reached, if the find-sessions
delegate is registered then `SessionSearch` points to a search context; so every
`OnFindSessionComplete` delivered through the delegate returns, never taking the
null-pointer case. -/
theorem C10_find_delegate_registered_implies_search_set (sub : Option IOnlineSubsystem)
    (G : Bool) (uid : Option FUniqueNetId) (settings : FOnlineSessionSettings)
    (search : FOnlineSessionSearch) (sessions : List FName) (evs : List Event) :
    (AMenuSystemCharacter sub G uid settings search sessions).SessionSearch = none ∧
    (AMenuSystemCharacter sub G uid settings search sessions).OnFindSessionsCompleteDelegates
      = [] ∧
    run (AMenuSystemCharacter sub G uid settings search sessions) evs
      ≠ .error Crash.SessionSearch ∧
    ((∃ w, run (AMenuSystemCharacter sub G uid settings search sessions) evs = .ok w ∧
      (w.OnFindSessionsCompleteDelegates ≠ [] →
        ∃ p s, w.SessionSearch = some p ∧ w.searchObjects[p]? = some s) ∧
      (w.OnFindSessionsCompleteDelegates ≠ [] →
        ∀ b, (OnFindSessionComplete w b).isSome = true) ∧
      (∀ b, (TriggerOnFindSessionsCompleteDelegates w b).isSome = true) ∧
      (∀ k b rs, (completeFindSessions w k b rs).isSome = true)) ∨
    (run (AMenuSystemCharacter sub G uid settings search sessions) evs =
        .error Crash.LocalPlayer ∧
      uid = none ∧
      (AMenuSystemCharacter sub G uid settings search sessions).OnlineSessionInterface =
        true)) := by
  refine ⟨?_, ?_, ?_, ?_⟩
  · cases sub <;> cases G <;> rfl
  · cases sub <;> cases G <;> rfl
  · rcases run_invariant uid _ False evs _ (Linked_init sub G uid settings search sessions)
        (Anchored_init sub G uid settings search sessions) False.elim with
      ⟨w, hr, _⟩ | ⟨hr, _⟩ <;> rw [hr] <;> intro h <;> cases h
  rcases run_invariant uid _ False evs _ (Linked_init sub G uid settings search sessions)
      (Anchored_init sub G uid settings search sessions) False.elim with
    ⟨w, hr, hl, _, _⟩ | hc
  · left
    have hps : w.OnFindSessionsCompleteDelegates ≠ [] →
        ∃ p s, w.SessionSearch = some p ∧ w.searchObjects[p]? = some s := by
      intro hd
      obtain ⟨p, hp1, hp2⟩ := hl.searchSet hd
      exact ⟨p, w.searchObjects[p], hp1, List.getElem?_eq_getElem hp2⟩
    refine ⟨w, hr, hps, ?_, ?_, ?_⟩
    · intro hd b
      obtain ⟨p, s, hp, hs⟩ := hps hd
      rw [OnFindSessionComplete_eq w b p s hp hs]
      rfl
    · intro b
      by_cases hd : w.OnFindSessionsCompleteDelegates = []
      · simp [TriggerOnFindSessionsCompleteDelegates, hd]
      · obtain ⟨p, s, hp, hs⟩ := hps hd
        obtain ⟨w2, h2, _⟩ :=
          TriggerOnFind_fold w.OnFindSessionsCompleteDelegates w b p s hp hs
        simp only [TriggerOnFindSessionsCompleteDelegates]
        rw [h2]
        rfl
    · intro k b rs
      cases h : w.pendingFind[k]? with
      | none => rw [completeFindSessions_none w k b rs h]; rfl
      | some p =>
        obtain ⟨w2, h2, _⟩ := completeFindSessions_some w k b rs p h hl.searchSet
        rw [h2]; rfl
  · exact Or.inr hc

theorem null_SessionSearch_is_the_failing_case (w : World) (b : Bool)
    (h : w.SessionSearch = none) : OnFindSessionComplete w b = none := by
  simp [OnFindSessionComplete, h]

end MenuSystem
